import Mathlib

/-!
Shallow embedding of the natural-language-to-visualization pipeline of
`src/back/modules/dataAnal/getStatistic.ts`.

JavaScript dynamic values are modelled by the inductive type `JVal`
(numbers as rationals; the model has no NaN value — `Number(x)` is
modelled as `jsNumber : JVal → Option ℚ`, with `none` playing the role
of NaN).  The language-model and database collaborators are modelled as
environments supplying the outcome of each external call, with
`Except String` modelling a call that either returns text or throws.
-/

namespace TextToChart

/-- Model of a JavaScript/JSON runtime value.  `null` also stands for
`undefined` (the code distinguishes them nowhere: both are falsy and both
come back from a missing property read). -/
inductive JVal where
  | null : JVal
  | bool : Bool → JVal
  | num : ℚ → JVal
  | str : String → JVal
  | arr : List JVal → JVal
  | obj : List (String × JVal) → JVal
deriving Inhabited

/-- JavaScript truthiness of a value (`NaN` is absent from the model,
numbers are exactly falsy at 0). -/
def truthy : JVal → Bool
  | .null => false
  | .bool b => b
  | .num q => decide (q ≠ 0)
  | .str s => decide (s ≠ "")
  | .arr _ => true
  | .obj _ => true

/-- `Array.isArray`. -/
def isArr : JVal → Bool
  | .arr _ => true
  | _ => false

/-- The element list of an array value (only ever used after an `isArr`
guard). -/
def asArr : JVal → List JVal
  | .arr xs => xs
  | _ => []

/-- Property read `v.k`: a lookup on an object, `undefined` (here `.null`)
on everything else.  The code only dereferences values it has checked to
be truthy, so the JS `TypeError` on reading a property of `null` is never
reachable and is not modelled. -/
def getField : JVal → String → JVal
  | .obj fs, k => ((fs.find? (fun p => p.1 == k)).map Prod.snd).getD .null
  | _, _ => .null

/-- Strict equality `v === "s"` between an arbitrary value and a string
literal. -/
def jsStrEq (v : JVal) (s : String) : Bool :=
  match v with
  | .str t => t == s
  | _ => false

/-- Whether the character list `p` is an initial segment of `l`. -/
def charsLead : List Char → List Char → Bool
  | [], _ => true
  | _ :: _, [] => false
  | p :: ps, c :: cs => p == c && charsLead ps cs

/-- Whether the character list `pat` occurs contiguously in `l`. -/
def charsContain (pat : List Char) : List Char → Bool
  | [] => pat.isEmpty
  | c :: cs => charsLead pat (c :: cs) || charsContain pat cs

/-- JavaScript `s.includes(pat)`. -/
def strContains (s pat : String) : Bool :=
  charsContain pat.data s.data

/-- JavaScript `s.trim()`: strip leading and trailing whitespace.
(Defined over the character list so that it evaluates by kernel
reduction; `String.trim` of core is extensionally the same on the
inputs the claims use.) -/
def jsTrim (s : String) : String :=
  ⟨((s.data.dropWhile Char.isWhitespace).reverse.dropWhile Char.isWhitespace).reverse⟩

/-- JavaScript `s.toLowerCase()` (ASCII, which is all the code compares). -/
def jsToLower (s : String) : String :=
  ⟨s.data.map Char.toLower⟩

/-- JavaScript `s.toUpperCase()` (ASCII). -/
def jsToUpper (s : String) : String :=
  ⟨s.data.map Char.toUpper⟩

/-- All characters are decimal digits. -/
def allDigits (cs : List Char) : Bool := cs.all Char.isDigit

/-- Numeric value of a digit string. -/
def digitsVal (cs : List Char) : ℕ :=
  cs.foldl (fun a c => a * 10 + (c.toNat - 48)) 0

/-- Unsigned decimal numeral, possibly with a fractional part
(`"12"`, `"12.5"`, `".5"`, `"5."`). -/
def parseUnsignedDec (cs : List Char) : Option ℚ :=
  match cs.splitOn '.' with
  | [ds] => if !ds.isEmpty && allDigits ds then some (digitsVal ds : ℚ) else none
  | [ip, fp] =>
      if allDigits ip && allDigits fp && !(ip.isEmpty && fp.isEmpty) then
        some ((digitsVal ip : ℚ) + (digitsVal fp : ℚ) / ((10 : ℚ) ^ fp.length))
      else none
  | _ => none

/-- `Number(s)` on a string: the empty/whitespace string is 0, otherwise
an optionally signed decimal numeral.  (Hexadecimal, exponent and
`Infinity` forms of the JS grammar are outside the modelled scope; no
claim exercises them.) -/
def parseNumString (s : String) : Option ℚ :=
  let t := jsTrim s
  if t = "" then some 0
  else
    match t.data with
    | '+' :: rest => parseUnsignedDec rest
    | '-' :: rest => (parseUnsignedDec rest).map Neg.neg
    | cs => parseUnsignedDec cs

/-- `Number(v)` followed by the `isNaN` test of the source: `some q` when
the coercion yields the number `q`, `none` when it yields NaN.
(Coercion of a non-empty array goes through a string round trip in JS and
is modelled as NaN; no claim exercises it.) -/
def jsNumber : JVal → Option ℚ
  | .null => some 0
  | .bool b => some (if b then 1 else 0)
  | .num q => some q
  | .str s => parseNumString s
  | .arr [] => some 0
  | .arr (_ :: _) => none
  | .obj _ => none

/-- Display conversion used by the template literal
`Invalid chart type: ${...}` (reached only for truthy non-chart types;
the resulting text matters to no claim beyond its `"Invalid"` lead). -/
def jsDisplay : JVal → String
  | .null => "null"
  | .bool b => if b then "true" else "false"
  | .num q => toString q
  | .str s => s
  | .arr _ => ""
  | .obj _ => "[object Object]"

/-- `PieChartData` after validation.  Labels are whatever
`data.labels[idx]` held (the code copies them without coercion, so they
need not be strings); `colors` is the raw `data.colors` value when it was
truthy and the generated default palette array otherwise. -/
structure PieChartData where
  labels : List JVal
  values : List ℚ
  colors : JVal
deriving Inhabited

/-- `WaterfallChartData` after validation.  The three label-text fields
hold the raw property value when it was truthy and the filled-in default
string otherwise. -/
structure WaterfallChartData where
  categories : List JVal
  values : List ℚ
  increaseLabelText : JVal
  decreaseLabelText : JVal
  totalLabelText : JVal
deriving Inhabited

/-- The `Statistics` union, `type` discriminant included. -/
inductive Statistics where
  | pie : PieChartData → Statistics
  | waterfall : WaterfallChartData → Statistics
deriving Inhabited

/-- `StatisticsResponse`: the `AnalysisResult` of the spec. -/
structure StatisticsResponse where
  interpretation : String
  statistics : Statistics
deriving Inhabited

/-- `createErrorResponse` (logging dropped). -/
def createErrorResponse (message : String) : StatisticsResponse :=
  ⟨message, .pie ⟨[.str "Error"], [100], .null⟩⟩

/-- `createPieChartErrorResponse`. -/
def createPieChartErrorResponse (message : String) : StatisticsResponse :=
  ⟨message, .pie ⟨[.str "Error"], [100], .null⟩⟩

/-- `createWaterfallChartErrorResponse`. -/
def createWaterfallChartErrorResponse (message : String) : StatisticsResponse :=
  ⟨message, .waterfall ⟨[.str "Start", .str "Error", .str "End"], [0, 0, 0], .null, .null, .null⟩⟩

/-- Indices (counting from `i`) of the entries of the list whose value
coerces to a number: the source's `values.map((val, idx) => !isNaN(Number(val)) ? idx : null).filter(idx => idx !== null)`. -/
def validIdxFrom (i : ℕ) : List JVal → List ℕ
  | [] => []
  | v :: rest =>
      match jsNumber v with
      | some _ => i :: validIdxFrom (i + 1) rest
      | none => validIdxFrom (i + 1) rest

/-- The `validIndices` array of `validateResponse`. -/
def validIndices (vals : List JVal) : List ℕ := validIdxFrom 0 vals

/-- The `defaultColors` palette. -/
def defaultColors : List String :=
  ["#4299E1", "#48BB78", "#F56565", "#ED8936", "#9F7AEA", "#38B2AC", "#F687B3", "#ECC94B"]

/-- The generated default colors array:
`data.labels.map((_, i) => defaultColors[i % defaultColors.length])`. -/
def genColors (labels : List JVal) : JVal :=
  .arr ((List.range labels.length).map (fun i => .str (defaultColors.getD (i % defaultColors.length) "")))

/-- `validIndices.map(idx => data.labels[idx])` — an out-of-range read is
`undefined` (`.null` here) and is copied as-is. -/
def keptPieLabels (ls vals : List JVal) : List JVal :=
  (validIndices vals).map (fun i => ls.getD i .null)

/-- `validIndices.map(idx => Number(data.values[idx]))`; every index in
`validIndices` coerces, so the `.getD 0` default is dead. -/
def keptValues (vals : List JVal) : List ℚ :=
  (validIndices vals).map (fun i => (jsNumber (vals.getD i .null)).getD 0)

/-- `validIndices.map(idx => data.categories[idx] || ` `Item ${idx}` `)`. -/
def keptCategories (cs vals : List JVal) : List JVal :=
  (validIndices vals).map (fun i =>
    let c := cs.getD i .null
    if truthy c then c else .str ("Item " ++ toString i))

/-- The start/end relabelling block of the waterfall branch
(`getStatistic.ts` lines 152–170).  `Except.error` models the `TypeError`
thrown by calling `.toLowerCase()` on a truthy non-string category; the
carried string models the V8 message (it matters to no claim beyond
containing neither `"Invalid"` nor `"Error"`).  The short-circuit of
`&&` is preserved: the first category is only inspected when the first
value is `0`.  `relabelLast` is the second half of the block (lines
162–169, applied to the possibly start-renamed array): the last category
is renamed `"End"` unless it already mentions an end or a total. -/
def relabelLast (cats1 : List JVal) : Except String (List JVal) :=
  match cats1.getD (cats1.length - 1) .null with
  | .str s =>
      .ok (if strContains (jsToLower s) "end" || strContains (jsToLower s) "total" then cats1
           else cats1.set (cats1.length - 1) (.str "End"))
  | _ => .error "data.categories[lastIdx].toLowerCase is not a function"

def relabelCategories (cats : List JVal) (vals : List ℚ) : Except String (List JVal) :=
  if 2 ≤ cats.length then
    if vals.getD 0 1 = 0 then
      match cats.getD 0 .null with
      | .str s =>
          if strContains (jsToLower s) "start" then relabelLast cats
          else relabelLast (cats.set 0 (.str "Start"))
      | _ => .error "data.categories[0].toLowerCase is not a function"
    else relabelLast cats
  else .ok cats

/-- The pie branch of `validateResponse` (lines 74–119), applied to the
already-replaced interpretation and to `response.statistics.data`. -/
def validatePie (interp : String) (data : JVal) : StatisticsResponse :=
  let labels := getField data "labels"
  let values := getField data "values"
  if !truthy labels || !truthy values || !isArr labels || !isArr values then
    createPieChartErrorResponse "Invalid pie chart data: labels and values must be arrays"
  else
    let labelsL := asArr labels
    let valuesL := asArr values
    if (validIndices valuesL).isEmpty then
      createPieChartErrorResponse "Invalid pie chart data: no valid numeric values"
    else
      let newLabels := keptPieLabels labelsL valuesL
      let newValues := keptValues valuesL
      let colors :=
        if truthy (getField data "colors") then getField data "colors" else genColors newLabels
      ⟨interp, .pie ⟨newLabels, newValues, colors⟩⟩

/-- The waterfall branch of `validateResponse` (lines 120–176), with the
surrounding `try`/`catch` of lines 72–182: a `TypeError` from the
relabelling block is converted to the generic
`Validation error: ...` response. -/
def validateWaterfall (interp : String) (data : JVal) : StatisticsResponse :=
  let cats := getField data "categories"
  let values := getField data "values"
  if !truthy cats || !truthy values || !isArr cats || !isArr values then
    createWaterfallChartErrorResponse "Invalid waterfall chart data: categories and values must be arrays"
  else
    let catsL := asArr cats
    let valuesL := asArr values
    if (validIndices valuesL).length < 2 then
      createWaterfallChartErrorResponse "Invalid waterfall chart data: need at least 2 valid numeric values"
    else
      let newCats := keptCategories catsL valuesL
      let newValues := keptValues valuesL
      match relabelCategories newCats newValues with
      | .error e => createErrorResponse ("Validation error: " ++ e)
      | .ok finalCats =>
          let inc := getField data "increaseLabelText"
          let dec := getField data "decreaseLabelText"
          let tot := getField data "totalLabelText"
          ⟨interp, .waterfall
            ⟨finalCats, newValues,
             if truthy inc then inc else .str "Increase",
             if truthy dec then dec else .str "Decrease",
             if truthy tot then tot else .str "Total"⟩⟩

/-- `validateResponse` (lines 41–185) applied to `parsedResponse`
(either the JSON parse of the model's text or, when parsing failed, the
raw text itself as a string value). -/
def validateResponse (response : JVal) : StatisticsResponse :=
  let interp :=
    match getField response "interpretation" with
    | .str s => if s = "" then "Analysis generated but no interpretation provided." else s
    | _ => "Analysis generated but no interpretation provided."
  let stats := getField response "statistics"
  if !truthy stats || !truthy (getField stats "type") then
    createErrorResponse "Invalid response structure: missing statistics or chart type"
  else
    let ty := getField stats "type"
    if !jsStrEq ty "pie_chart" && !jsStrEq ty "waterfall_chart" then
      createErrorResponse ("Invalid chart type: " ++ jsDisplay ty)
    else if !truthy (getField stats "data") then
      createErrorResponse "Invalid response structure: missing chart data"
    else if jsStrEq ty "pie_chart" then
      validatePie interp (getField stats "data")
    else
      validateWaterfall interp (getField stats "data")

/-- The acceptance test of the retry loop (lines 582–588): a validated
response counts as valid when its interpretation contains neither
`"Invalid"` nor `"Error"`. -/
def acceptable (r : StatisticsResponse) : Bool :=
  !strContains r.interpretation "Invalid" && !strContains r.interpretation "Error"

/-- The two strict output schemas of the shape-generation call
(`simplePieChartSchema` / `simpleWaterfallChartSchema`); only their
identity matters to the model. -/
inductive Schema where
  | pie : Schema
  | waterfall : Schema
deriving DecidableEq, Inhabited

/-- The schema selection of lines 396–399:
`chartType === "waterfall_chart" ? simpleWaterfallChartSchema : simplePieChartSchema`. -/
def selectSchema (chartType : String) : Schema :=
  if chartType = "waterfall_chart" then Schema.waterfall else Schema.pie

/-- Behaviour of the language-model collaborator for one
`generateAnalysis` run.  `classify` is the chart-type call
(`Except.error` models a thrown/rejected call); `shape schema n` is the
result of the shape-generation call of attempt `n` made with the chosen
strict output schema — `Except.ok v` carries `parsedResponse` (an
arbitrary runtime value: the JSON parse of the returned text, or the raw
text as a string when parsing failed), `Except.error` a thrown call.
Prompt texts (which also vary per attempt) are absorbed into the
environment. -/
structure Env where
  classify : Except String String
  shape : Schema → ℕ → Except String JVal

/-- One iteration of the do-while body (lines 406–595) at retry counter
`n`: `some v` when the attempt set `validResponse` (model call returned,
validation passed the acceptance test), `none` when the attempt failed
(thrown call or unacceptable validated response) and the retry counter
advanced. -/
def attemptOutcome (env : Env) (schema : Schema) (n : ℕ) : Option StatisticsResponse :=
  match env.shape schema n with
  | .error _ => none
  | .ok parsed =>
      let v := validateResponse parsed
      if acceptable v then some v else none

/-- The whole do-while loop (`maxRetries = 3`): the first of attempts
0, 1, 2 to produce a valid response, if any. -/
def runLoop (env : Env) (schema : Schema) : Option StatisticsResponse :=
  match attemptOutcome env schema 0 with
  | some v => some v
  | none =>
      match attemptOutcome env schema 1 with
      | some v => some v
      | none => attemptOutcome env schema 2

/-- How many shape-generation attempts the loop actually makes: the body
runs until an attempt succeeds or the retry counter reaches 3. -/
def shapeCallCount (env : Env) (schema : Schema) : ℕ :=
  match attemptOutcome env schema 0 with
  | some _ => 1
  | none =>
      match attemptOutcome env schema 1 with
      | some _ => 2
      | none => 3

/-- The canned empty-result response of lines 357–368. -/
def noDataResponse : StatisticsResponse :=
  ⟨"No data available for analysis.", .pie ⟨[.str "No Data"], [100], .null⟩⟩

/-- The deterministic exhausted-retry fallback of lines 599–625. -/
def fallbackResponse (chartType : String) (rowCount : ℕ) : StatisticsResponse :=
  if chartType = "waterfall_chart" then
    ⟨"Unable to generate a detailed analysis, but here\x27s a simple overview of the data.",
     .waterfall ⟨[.str "Start", .str "Change", .str "End"],
                 [0, (rowCount : ℚ), (rowCount : ℚ)], .null, .null, .null⟩⟩
  else
    ⟨"Unable to generate a detailed analysis, but here\x27s a simple overview of the data.",
     .pie ⟨[.str "Data Points"], [(rowCount : ℚ)], .null⟩⟩

/-- Result of a `generateAnalysis` run: the returned (or thrown) value
together with how many classifier and shape-generation calls were made. -/
structure GenResult where
  response : Except String StatisticsResponse
  classifierCalls : ℕ
  shapeCalls : ℕ
deriving Inhabited

/-- `generateAnalysis` (lines 352–628).  The empty-data case returns
before any model call; otherwise the chart-type classifier runs once (a
thrown classifier call propagates — there is no `try` around it), the
chart type is the trimmed lowercased answer, and the retry loop runs with
the schema chosen from it, falling back to the deterministic response on
exhaustion. -/
def generateAnalysis (env : Env) (data : List JVal) (_originalQuestion : String) : GenResult :=
  if data.length = 0 then
    ⟨.ok noDataResponse, 0, 0⟩
  else
    match env.classify with
    | .error e => ⟨.error e, 1, 0⟩
    | .ok txt =>
        let chartType := jsToLower (jsTrim txt)
        let schema := selectSchema chartType
        match runLoop env schema with
        | some v => ⟨.ok v, 1, shapeCallCount env schema⟩
        | none => ⟨.ok (fallbackResponse chartType data.length), 1, 3⟩

/-- Behaviour of the collaborators of one orchestrator run: the SQL
synthesis model call, the database query, and the `generateAnalysis`
collaborators. -/
structure OrchEnv where
  sqlGen : Except String String
  dbRows : Except String (List JVal)
  gen : Env

/-- `generateSqlQuery` (lines 305–344): rejects a blank question, wraps
a thrown model call, and wraps the failed `SELECT` plausibility check. -/
def generateSqlQuery (env : OrchEnv) (question : String) : Except String String :=
  if jsTrim question = "" then
    .error "Invalid question: Question must be a non-empty string"
  else
    match env.sqlGen with
    | .error e => .error ("Failed to generate SQL query: " ++ e)
    | .ok txt =>
        let sqlQuery := jsTrim txt
        if strContains (jsToUpper sqlQuery) "SELECT" then .ok sqlQuery
        else .error "Failed to generate SQL query: Failed to generate a valid SQL query"

/-- `makeQuery` (lines 277–295): rejects a blank query string and wraps
driver errors. -/
def makeQuery (env : OrchEnv) (query : String) : Except String (List JVal) :=
  if jsTrim query = "" then
    .error "Invalid query: Query must be a non-empty string"
  else
    match env.dbRows with
    | .error e => .error ("Database error: " ++ e)
    | .ok rows => .ok rows

/-- Result of an orchestrator run: the returned `AnalysisResult` (the
final `.catch` makes the function total — no exception escapes) together
with how many synthesizer, classifier and shape-generation calls were
made. -/
structure OrchResult where
  response : StatisticsResponse
  synthCalls : ℕ
  classifierCalls : ℕ
  shapeCalls : ℕ
deriving Inhabited

/-- `analyzeStatisticalQuestion` (lines 695–731): blank questions are
rejected before the synthesizer runs, and every error of the
synthesizer/executor/analysis chain is converted by the final `.catch`
into `createErrorResponse("Analysis failed: ...")`. -/
def analyzeStatisticalQuestion (env : OrchEnv) (userQuestion : String) : OrchResult :=
  if jsTrim userQuestion = "" then
    ⟨createErrorResponse "Invalid question: Question must be a non-empty string", 0, 0, 0⟩
  else
    match generateSqlQuery env userQuestion with
    | .error e => ⟨createErrorResponse ("Analysis failed: " ++ e), 1, 0, 0⟩
    | .ok sqlQuery =>
        match makeQuery env sqlQuery with
        | .error e => ⟨createErrorResponse ("Analysis failed: " ++ e), 1, 0, 0⟩
        | .ok rows =>
            let g := generateAnalysis env.gen rows userQuestion
            match g.response with
            | .error e =>
                ⟨createErrorResponse ("Analysis failed: " ++ e), 1, g.classifierCalls, g.shapeCalls⟩
            | .ok r => ⟨r, 1, g.classifierCalls, g.shapeCalls⟩

/-- The structural invariant of the spec on an `AnalysisResult`: pie
labels/values have equal length; waterfall categories/values have equal
length, at least 2. -/
def structOk (r : StatisticsResponse) : Prop :=
  match r.statistics with
  | .pie d => d.labels.length = d.values.length
  | .waterfall d => d.categories.length = d.values.length ∧ 2 ≤ d.values.length

/-- The pie payload of a response, when it is a pie chart. -/
def pieDataOf (r : StatisticsResponse) : Option PieChartData :=
  match r.statistics with
  | .pie d => some d
  | _ => none

/-- The waterfall payload of a response, when it is a waterfall chart. -/
def wfDataOf (r : StatisticsResponse) : Option WaterfallChartData :=
  match r.statistics with
  | .waterfall d => some d
  | _ => none

/-! ### Index-filtering lemmas -/

theorem validIdxFrom_eq_map_add (vals : List JVal) :
    ∀ i, validIdxFrom i vals = (validIdxFrom 0 vals).map (· + i) := by
  induction vals with
  | nil => intro i; rfl
  | cons v rest ih =>
      intro i
      have hfg : ∀ j k : ℕ, ((fun x => x + j) ∘ (fun x => x + k)) = (fun x => x + (j + k)) := by
        intro j k
        funext x
        simp only [Function.comp_apply]
        omega
      cases hj : jsNumber v with
      | some q =>
          simp only [validIdxFrom, hj, List.map_cons, Nat.zero_add, ih (i + 1), ih 1,
            List.map_map, hfg]
      | none =>
          simp only [validIdxFrom, hj, ih (i + 1), ih 1, List.map_map, hfg]

theorem keptValues_eq_filterMap (vals : List JVal) :
    keptValues vals = vals.filterMap jsNumber := by
  induction vals with
  | nil => rfl
  | cons v rest ih =>
      unfold keptValues validIndices at ih ⊢
      have hcomp : ((fun i => (jsNumber ((v :: rest).getD i JVal.null)).getD 0) ∘ (· + 1)) =
          (fun i => (jsNumber (rest.getD i JVal.null)).getD 0) := by
        funext x
        simp [List.getD_cons_succ]
      have htail : ((validIdxFrom 0 rest).map (· + 1)).map
            (fun i => (jsNumber ((v :: rest).getD i JVal.null)).getD 0) =
          rest.filterMap jsNumber := by
        rw [List.map_map, hcomp]
        exact ih
      cases hj : jsNumber v with
      | some q =>
          simp only [validIdxFrom, hj, List.map_cons, List.getD_cons_zero, Option.getD_some,
            List.filterMap_cons, validIdxFrom_eq_map_add rest 1, htail]
      | none =>
          simp only [validIdxFrom, hj, List.filterMap_cons,
            validIdxFrom_eq_map_add rest 1, htail]

theorem validIndices_length (vals : List JVal) :
    (validIndices vals).length = (vals.filterMap jsNumber).length := by
  rw [← keptValues_eq_filterMap]
  simp [keptValues]

theorem validIndices_allNum (vs : List ℚ) :
    validIndices (vs.map JVal.num) = List.range vs.length := by
  induction vs with
  | nil => rfl
  | cons v rest ih =>
      unfold validIndices at ih ⊢
      have hsucc : ((fun x : ℕ => x + 1) : ℕ → ℕ) = Nat.succ := by
        funext x
        rfl
      simp only [List.map_cons, validIdxFrom, jsNumber, List.length_cons,
        List.range_succ_eq_map, validIdxFrom_eq_map_add (rest.map JVal.num) 1, ih, hsucc]

theorem map_range_getD {α β : Type} (l : List α) (d : α) (f : α → β) :
    (List.range l.length).map (fun i => f (l.getD i d)) = l.map f := by
  induction l with
  | nil => rfl
  | cons a t ih =>
      have hcomp : ((fun i => f ((a :: t).getD i d)) ∘ Nat.succ) =
          (fun i => f (t.getD i d)) := by
        funext x
        simp [List.getD_cons_succ]
      have htail : ((List.range t.length).map Nat.succ).map (fun i => f ((a :: t).getD i d)) =
          t.map f := by
        rw [List.map_map, hcomp]
        exact ih
      simp only [List.length_cons, List.range_succ_eq_map, List.map_cons, List.getD_cons_zero,
        htail]

/-! ### Structural-invariant lemmas -/

theorem relabelLast_length (cats1 : List JVal) (out : List JVal)
    (h : relabelLast cats1 = .ok out) : out.length = cats1.length := by
  unfold relabelLast at h
  split at h
  · split at h <;> (cases h; simp)
  · cases h

theorem relabelCategories_length (cats : List JVal) (vals : List ℚ) (out : List JVal)
    (h : relabelCategories cats vals = .ok out) : out.length = cats.length := by
  unfold relabelCategories at h
  split at h
  · split at h
    · split at h
      · split at h
        · exact relabelLast_length _ _ h
        · have := relabelLast_length _ _ h
          simpa using this
      · cases h
    · exact relabelLast_length _ _ h
  · cases h
    rfl

theorem structOk_createErrorResponse (m : String) : structOk (createErrorResponse m) := by
  simp [structOk, createErrorResponse]

theorem structOk_createPieChartErrorResponse (m : String) :
    structOk (createPieChartErrorResponse m) := by
  simp [structOk, createPieChartErrorResponse]

theorem structOk_createWaterfallChartErrorResponse (m : String) :
    structOk (createWaterfallChartErrorResponse m) := by
  constructor <;> simp [createWaterfallChartErrorResponse]

theorem structOk_validatePie (interp : String) (data : JVal) :
    structOk (validatePie interp data) := by
  simp only [validatePie]
  split
  · exact structOk_createPieChartErrorResponse _
  · split
    · exact structOk_createPieChartErrorResponse _
    · simp [structOk, keptPieLabels, keptValues]

theorem structOk_validateWaterfall (interp : String) (data : JVal) :
    structOk (validateWaterfall interp data) := by
  simp only [validateWaterfall]
  split
  · exact structOk_createWaterfallChartErrorResponse _
  · split
    · exact structOk_createWaterfallChartErrorResponse _
    · rename_i hlen
      split
      · exact structOk_createErrorResponse _
      · rename_i out hout
        have hcats := relabelCategories_length _ _ _ hout
        refine ⟨?_, ?_⟩
        · rw [hcats]
          simp [keptCategories, keptValues]
        · simp only [keptValues, List.length_map]
          omega

theorem structOk_validateResponse (response : JVal) :
    structOk (validateResponse response) := by
  simp only [validateResponse]
  repeat' split
  all_goals
    first
      | exact structOk_createErrorResponse _
      | exact structOk_validatePie _ _
      | exact structOk_validateWaterfall _ _

theorem structOk_attemptOutcome (env : Env) (schema : Schema) (n : ℕ)
    (v : StatisticsResponse) (h : attemptOutcome env schema n = some v) : structOk v := by
  unfold attemptOutcome at h
  cases hs : env.shape schema n with
  | error e => rw [hs] at h; cases h
  | ok parsed =>
      rw [hs] at h
      by_cases ha : acceptable (validateResponse parsed) = true
      · simp only [ha, if_true] at h
        cases h
        exact structOk_validateResponse parsed
      · simp only [ha, if_false] at h
        cases h

theorem structOk_runLoop (env : Env) (schema : Schema) (v : StatisticsResponse)
    (h : runLoop env schema = some v) : structOk v := by
  unfold runLoop at h
  cases h0 : attemptOutcome env schema 0 with
  | some w => rw [h0] at h; cases h; exact structOk_attemptOutcome env schema 0 _ h0
  | none =>
      rw [h0] at h
      cases h1 : attemptOutcome env schema 1 with
      | some w => rw [h1] at h; cases h; exact structOk_attemptOutcome env schema 1 _ h1
      | none =>
          rw [h1] at h
          exact structOk_attemptOutcome env schema 2 _ h

theorem structOk_noDataResponse : structOk noDataResponse := by
  simp [structOk, noDataResponse]

theorem structOk_fallbackResponse (chartType : String) (rowCount : ℕ) :
    structOk (fallbackResponse chartType rowCount) := by
  unfold fallbackResponse
  split
  · constructor <;> simp
  · simp [structOk]

theorem structOk_generateAnalysis (env : Env) (data : List JVal) (q : String)
    (r : StatisticsResponse) (h : (generateAnalysis env data q).response = .ok r) :
    structOk r := by
  simp only [generateAnalysis] at h
  split at h
  · cases h
    exact structOk_noDataResponse
  · cases hc : env.classify with
    | error e =>
        rw [hc] at h
        dsimp only at h
        cases h
    | ok txt =>
        rw [hc] at h
        dsimp only at h
        cases hl : runLoop env (selectSchema (jsToLower (jsTrim txt))) with
        | some v =>
            rw [hl] at h
            dsimp only at h
            cases h
            exact structOk_runLoop _ _ _ hl
        | none =>
            rw [hl] at h
            dsimp only at h
            cases h
            exact structOk_fallbackResponse _ _

theorem shapeCallCount_le_three (env : Env) (schema : Schema) :
    shapeCallCount env schema ≤ 3 := by
  unfold shapeCallCount
  split
  · omega
  · split <;> omega

theorem generateAnalysis_shapeCalls_le_three (env : Env) (data : List JVal) (q : String) :
    (generateAnalysis env data q).shapeCalls ≤ 3 := by
  simp only [generateAnalysis]
  split
  · simp
  · cases hc : env.classify with
    | error e => simp
    | ok txt =>
        dsimp only
        cases hl : runLoop env (selectSchema (jsToLower (jsTrim txt))) with
        | some v => simpa using shapeCallCount_le_three env _
        | none => simp

theorem analyze_structOk (env : OrchEnv) (q : String) :
    structOk (analyzeStatisticalQuestion env q).response := by
  simp only [analyzeStatisticalQuestion]
  split
  · exact structOk_createErrorResponse _
  · cases hs : generateSqlQuery env q with
    | error e => exact structOk_createErrorResponse _
    | ok sql =>
        dsimp only
        cases hq : makeQuery env sql with
        | error e => exact structOk_createErrorResponse _
        | ok rows =>
            dsimp only
            cases hg : (generateAnalysis env.gen rows q).response with
            | error e => exact structOk_createErrorResponse _
            | ok r => exact structOk_generateAnalysis _ _ _ _ hg

theorem analyze_shapeCalls_le_three (env : OrchEnv) (q : String) :
    (analyzeStatisticalQuestion env q).shapeCalls ≤ 3 := by
  simp only [analyzeStatisticalQuestion]
  split
  · simp
  · cases hs : generateSqlQuery env q with
    | error e => simp
    | ok sql =>
        dsimp only
        cases hq : makeQuery env sql with
        | error e => simp
        | ok rows =>
            dsimp only
            cases hg : (generateAnalysis env.gen rows q).response with
            | error e => simpa using generateAnalysis_shapeCalls_le_three env.gen rows q
            | ok r => simpa using generateAnalysis_shapeCalls_le_three env.gen rows q

/-! ### Sample environments used by concrete witnesses -/

/-- An environment whose shape-generation call always throws and whose
classifier answers `pie_chart`. -/
def pieStubEnv : Env := ⟨.ok "pie_chart", fun _ _ => .error "model call failed"⟩

/-- An environment whose shape-generation call always throws and whose
classifier answers `waterfall_chart`. -/
def wfStubEnv : Env := ⟨.ok "waterfall_chart", fun _ _ => .error "model call failed"⟩

/-- An environment whose classifier answers an unrecognized chart name. -/
def barStubEnv : Env := ⟨.ok "bar_chart", fun _ _ => .error "model call failed"⟩

/-- A full orchestrator environment over `pieStubEnv`. -/
def sampleOrchEnv : OrchEnv := ⟨.ok "SELECT 1", .ok [], pieStubEnv⟩

/-! ### Claim theorems -/

/-- C1.  For every `AnalysisResult` returned by the orchestrator
`analyzeStatisticalQuestion` — over every collaborator behaviour, so over
the success path, every degraded error path, and the exhausted-retry
fallback path — the structural invariant holds: a `pie_chart` result has
equally long `labels` and `values`, and a `waterfall_chart` result has
equally long `categories` and `values` of length at least 2. -/
theorem orchestrator_structural_invariant (env : OrchEnv) (q : String) :
    structOk (analyzeStatisticalQuestion env q).response :=
  analyze_structOk env q

/-- C2.  For every question and every behaviour of the language-model and
database collaborators (including one whose shape call always throws or
always returns malformed values), the orchestrator makes at most 3
shape-generation attempts and returns an `AnalysisResult` value — the
total Lean function `analyzeStatisticalQuestion` returns an `OrchResult`
whose `response` satisfies the structural invariant, and no collaborator
failure survives as an `Except.error` past the orchestrator boundary. -/
theorem orchestrator_totality_and_retry_budget (env : OrchEnv) (q : String) :
    (analyzeStatisticalQuestion env q).shapeCalls ≤ 3 ∧
    structOk (analyzeStatisticalQuestion env q).response :=
  ⟨analyze_shapeCalls_le_three env q, analyze_structOk env q⟩

/-- C6.  When the query executor returns zero rows, `generateAnalysis`
returns exactly the canned "No data available for analysis." pie chart
(`labels = ["No Data"]`, `values = [100]`) with zero classifier calls and
zero shape-generation calls, for every environment and question. -/
theorem empty_rows_short_circuit (env : Env) (q : String) :
    generateAnalysis env [] q =
      ⟨.ok ⟨"No data available for analysis.",
            .pie ⟨[.str "No Data"], [100], .null⟩⟩, 0, 0⟩ := rfl

/-- C7.  A question that is empty after trimming (so `""` and `"   "`)
makes `analyzeStatisticalQuestion` return the empty-question error
result — interpretation `"Invalid question: Question must be a non-empty
string"` over the minimal `["Error"]`/`[100]` pie chart — with zero
synthesizer calls. -/
theorem empty_question_rejected (env : OrchEnv) (q : String) (h : jsTrim q = "") :
    analyzeStatisticalQuestion env q =
      ⟨⟨"Invalid question: Question must be a non-empty string",
        .pie ⟨[.str "Error"], [100], .null⟩⟩, 0, 0, 0⟩ := by
  unfold analyzeStatisticalQuestion
  rw [if_pos h]
  rfl

/-- Witness for C7 at the two inputs named by the claim, `""` and
`"   "`. -/
theorem empty_question_rejected_witness :
    analyzeStatisticalQuestion sampleOrchEnv "" =
      ⟨⟨"Invalid question: Question must be a non-empty string",
        .pie ⟨[.str "Error"], [100], .null⟩⟩, 0, 0, 0⟩ ∧
    analyzeStatisticalQuestion sampleOrchEnv "   " =
      ⟨⟨"Invalid question: Question must be a non-empty string",
        .pie ⟨[.str "Error"], [100], .null⟩⟩, 0, 0, 0⟩ :=
  ⟨empty_question_rejected sampleOrchEnv "" (by decide),
   empty_question_rejected sampleOrchEnv "   " (by decide)⟩

/-- C4.  When all 3 shape-generation attempts fail, `generateAnalysis`
returns exactly the documented deterministic fallback: for a classified
`waterfall_chart`, categories `["Start","Change","End"]` with values
`[0, rowCount, rowCount]`; otherwise a pie chart with labels
`["Data Points"]` and values `[rowCount]`, where `rowCount` is the length
of the executor result set. -/
theorem retry_exhaustion_deterministic_fallback (env : Env) (data : List JVal) (q txt : String)
    (hdata : data ≠ [])
    (hcls : env.classify = .ok txt)
    (h0 : attemptOutcome env (selectSchema (jsToLower (jsTrim txt))) 0 = none)
    (h1 : attemptOutcome env (selectSchema (jsToLower (jsTrim txt))) 1 = none)
    (h2 : attemptOutcome env (selectSchema (jsToLower (jsTrim txt))) 2 = none) :
    (generateAnalysis env data q).response =
      .ok (if jsToLower (jsTrim txt) = "waterfall_chart" then
            ⟨"Unable to generate a detailed analysis, but here\x27s a simple overview of the data.",
             .waterfall ⟨[.str "Start", .str "Change", .str "End"],
                         [0, (data.length : ℚ), (data.length : ℚ)], .null, .null, .null⟩⟩
          else
            ⟨"Unable to generate a detailed analysis, but here\x27s a simple overview of the data.",
             .pie ⟨[.str "Data Points"], [(data.length : ℚ)], .null⟩⟩) := by
  have hlen : ¬ data.length = 0 := by simpa using hdata
  have hloop : runLoop env (selectSchema (jsToLower (jsTrim txt))) = none := by
    unfold runLoop
    rw [h0, h1]
    exact h2
  simp only [generateAnalysis]
  rw [if_neg hlen, hcls]
  dsimp only
  rw [hloop]
  rfl

/-- Witness for C4: a classifier answering `waterfall_chart` and a shape
call that always throws, over a three-row result set. -/
theorem retry_exhaustion_deterministic_fallback_witness :
    (generateAnalysis wfStubEnv [.num 1, .num 2, .num 3] "q").response =
      .ok ⟨"Unable to generate a detailed analysis, but here\x27s a simple overview of the data.",
           .waterfall ⟨[.str "Start", .str "Change", .str "End"],
                       [0, ((3 : ℕ) : ℚ), ((3 : ℕ) : ℚ)], .null, .null, .null⟩⟩ := by
  have h := retry_exhaustion_deterministic_fallback wfStubEnv [.num 1, .num 2, .num 3] "q"
      "waterfall_chart" (List.cons_ne_nil _ _) rfl rfl rfl rfl
  rw [show jsToLower (jsTrim "waterfall_chart") = "waterfall_chart" from by decide] at h
  rw [if_pos rfl] at h
  exact h

/-- C8.  When the classifier answer matches neither `pie_chart` nor
`waterfall_chart`, the shape-generation stage treats the chart type as
pie: the pie output schema is the one selected (so every attempt is made
with it), and on retry exhaustion the pie fallback is emitted instead of
the waterfall fallback. -/
theorem unrecognized_chart_type_treated_as_pie (env : Env) (data : List JVal) (q txt : String)
    (_hp : jsToLower (jsTrim txt) ≠ "pie_chart")
    (hw : jsToLower (jsTrim txt) ≠ "waterfall_chart")
    (hcls : env.classify = .ok txt)
    (hdata : data ≠ [])
    (h0 : attemptOutcome env Schema.pie 0 = none)
    (h1 : attemptOutcome env Schema.pie 1 = none)
    (h2 : attemptOutcome env Schema.pie 2 = none) :
    selectSchema (jsToLower (jsTrim txt)) = Schema.pie ∧
    (generateAnalysis env data q).response =
      .ok ⟨"Unable to generate a detailed analysis, but here\x27s a simple overview of the data.",
           .pie ⟨[.str "Data Points"], [(data.length : ℚ)], .null⟩⟩ := by
  have hsel : selectSchema (jsToLower (jsTrim txt)) = Schema.pie := by
    unfold selectSchema
    rw [if_neg hw]
  refine ⟨hsel, ?_⟩
  have hlen : ¬ data.length = 0 := by simpa using hdata
  have hloop : runLoop env (selectSchema (jsToLower (jsTrim txt))) = none := by
    unfold runLoop
    rw [hsel, h0, h1]
    exact h2
  simp only [generateAnalysis]
  rw [if_neg hlen, hcls]
  dsimp only
  rw [hloop]
  dsimp only
  unfold fallbackResponse
  rw [if_neg hw]

/-- Witness for C8 at the unrecognized classifier answer `bar_chart`. -/
theorem unrecognized_chart_type_treated_as_pie_witness :
    selectSchema (jsToLower (jsTrim "bar_chart")) = Schema.pie ∧
    (generateAnalysis barStubEnv [.num 1] "q").response =
      .ok ⟨"Unable to generate a detailed analysis, but here\x27s a simple overview of the data.",
           .pie ⟨[.str "Data Points"], [((1 : ℕ) : ℚ)], .null⟩⟩ :=
  unrecognized_chart_type_treated_as_pie barStubEnv [.num 1] "q" "bar_chart"
    (by decide) (by decide) rfl (List.cons_ne_nil _ _) rfl rfl rfl

/-- C9.  A model response whose validated interpretation contains
`"Invalid"` or `"Error"` makes the attempt fail even when the shape is
structurally valid: the attempt produces no `validResponse` (the retry
counter advances), and when every attempt is of this kind the loop runs
all 3 attempts and the deterministic fallback is returned instead of any
of the validated shapes. -/
theorem bad_interpretation_attempt_fails (env : Env) (data : List JVal) (q txt : String)
    (hdata : data ≠ [])
    (hcls : env.classify = .ok txt)
    (hbad : ∀ n parsed, env.shape (selectSchema (jsToLower (jsTrim txt))) n = .ok parsed →
        strContains (validateResponse parsed).interpretation "Invalid" = true ∨
        strContains (validateResponse parsed).interpretation "Error" = true) :
    (∀ n, attemptOutcome env (selectSchema (jsToLower (jsTrim txt))) n = none) ∧
    (generateAnalysis env data q).response =
      .ok (fallbackResponse (jsToLower (jsTrim txt)) data.length) ∧
    (generateAnalysis env data q).shapeCalls = 3 := by
  have hnone : ∀ n, attemptOutcome env (selectSchema (jsToLower (jsTrim txt))) n = none := by
    intro n
    unfold attemptOutcome
    cases hs : env.shape (selectSchema (jsToLower (jsTrim txt))) n with
    | error e => rfl
    | ok parsed =>
        dsimp only
        have hacc : acceptable (validateResponse parsed) = false := by
          unfold acceptable
          rcases hbad n parsed hs with hb | hb <;> simp [hb]
        rw [hacc]
        rfl
  have hlen : ¬ data.length = 0 := by simpa using hdata
  have hloop : runLoop env (selectSchema (jsToLower (jsTrim txt))) = none := by
    unfold runLoop
    rw [hnone 0, hnone 1]
    exact hnone 2
  refine ⟨hnone, ?_, ?_⟩
  · simp only [generateAnalysis]
    rw [if_neg hlen, hcls]
    dsimp only
    rw [hloop]
  · simp only [generateAnalysis]
    rw [if_neg hlen, hcls]
    dsimp only
    rw [hloop]

/-- A structurally valid pie response whose interpretation starts with
`"Error"`. -/
def badInterpParsed : JVal :=
  .obj [("interpretation", .str "Error: no stable interpretation"),
        ("statistics", .obj [("type", .str "pie_chart"),
          ("data", .obj [("labels", .arr [.str "A", .str "B"]),
                         ("values", .arr [.num 1, .num 2])])])]

/-- An environment whose shape call always returns `badInterpParsed`. -/
def badInterpEnv : Env := ⟨.ok "pie_chart", fun _ _ => .ok badInterpParsed⟩

/-- Witness for C9: the response is structurally valid (its validated
statistics keep both pairs), yet the attempt fails and the fallback is
returned. -/
theorem bad_interpretation_attempt_fails_witness :
    attemptOutcome badInterpEnv Schema.pie 0 = none ∧
    (generateAnalysis badInterpEnv [.num 5] "q").response =
      .ok (fallbackResponse "pie_chart" 1) ∧
    (validateResponse badInterpParsed).statistics =
      .pie ⟨[.str "A", .str "B"], [1, 2], genColors [.str "A", .str "B"]⟩ := by
  have hb : ∀ n parsed,
      badInterpEnv.shape (selectSchema (jsToLower (jsTrim "pie_chart"))) n = .ok parsed →
      strContains (validateResponse parsed).interpretation "Invalid" = true ∨
      strContains (validateResponse parsed).interpretation "Error" = true := by
    intro n parsed hsp
    simp only [badInterpEnv] at hsp
    cases hsp
    right
    decide
  have h := bad_interpretation_attempt_fails badInterpEnv [.num 5] "q" "pie_chart"
      (List.cons_ne_nil _ _) rfl hb
  refine ⟨h.1 0, ?_, ?_⟩
  · have h21 := h.2.1
    rw [show jsToLower (jsTrim "pie_chart") = "pie_chart" from by decide] at h21
    exact h21
  · rfl


/-! ### Raw-response constructors and validator reduction lemmas -/

/-- A raw model response of pie type with the given `labels`/`values`
payloads (exactly the shape the strict pie schema requests). -/
def mkPieRawJ (interp : String) (labels values : JVal) : JVal :=
  .obj [("interpretation", .str interp),
        ("statistics", .obj [("type", .str "pie_chart"),
                             ("data", .obj [("labels", labels), ("values", values)])])]

/-- A raw model response of waterfall type with the given
`categories`/`values` payloads. -/
def mkWfRawJ (interp : String) (categories values : JVal) : JVal :=
  .obj [("interpretation", .str interp),
        ("statistics", .obj [("type", .str "waterfall_chart"),
                             ("data", .obj [("categories", categories), ("values", values)])])]

theorem validateResponse_pieRaw (interp : String) (labels values : JVal) :
    validateResponse (mkPieRawJ interp labels values) =
      validatePie (if interp = "" then "Analysis generated but no interpretation provided."
                   else interp)
        (.obj [("labels", labels), ("values", values)]) := rfl

theorem validateResponse_wfRaw (interp : String) (categories values : JVal) :
    validateResponse (mkWfRawJ interp categories values) =
      validateWaterfall (if interp = "" then "Analysis generated but no interpretation provided."
                         else interp)
        (.obj [("categories", categories), ("values", values)]) := rfl

theorem validatePie_err (interp : String) (ls vs : List JVal)
    (h : (validIndices vs).isEmpty = true) :
    validatePie interp (.obj [("labels", .arr ls), ("values", .arr vs)]) =
      createPieChartErrorResponse "Invalid pie chart data: no valid numeric values" := by
  show (if (validIndices vs).isEmpty = true
        then createPieChartErrorResponse "Invalid pie chart data: no valid numeric values"
        else ⟨interp, .pie ⟨keptPieLabels ls vs, keptValues vs,
                            genColors (keptPieLabels ls vs)⟩⟩) =
      createPieChartErrorResponse "Invalid pie chart data: no valid numeric values"
  rw [h]
  rfl

theorem validatePie_ok (interp : String) (ls vs : List JVal)
    (h : (validIndices vs).isEmpty = false) :
    validatePie interp (.obj [("labels", .arr ls), ("values", .arr vs)]) =
      ⟨interp, .pie ⟨keptPieLabels ls vs, keptValues vs, genColors (keptPieLabels ls vs)⟩⟩ := by
  show (if (validIndices vs).isEmpty = true
        then createPieChartErrorResponse "Invalid pie chart data: no valid numeric values"
        else ⟨interp, .pie ⟨keptPieLabels ls vs, keptValues vs,
                            genColors (keptPieLabels ls vs)⟩⟩) =
      ⟨interp, .pie ⟨keptPieLabels ls vs, keptValues vs, genColors (keptPieLabels ls vs)⟩⟩
  rw [h]
  rfl

theorem validateWaterfall_err (interp : String) (cs vs : List JVal)
    (h : (validIndices vs).length < 2) :
    validateWaterfall interp (.obj [("categories", .arr cs), ("values", .arr vs)]) =
      createWaterfallChartErrorResponse
        "Invalid waterfall chart data: need at least 2 valid numeric values" := by
  show (if (validIndices vs).length < 2
        then createWaterfallChartErrorResponse
               "Invalid waterfall chart data: need at least 2 valid numeric values"
        else match relabelCategories (keptCategories cs vs) (keptValues vs) with
          | .error e => createErrorResponse ("Validation error: " ++ e)
          | .ok finalCats =>
              ⟨interp, .waterfall ⟨finalCats, keptValues vs,
                                   .str "Increase", .str "Decrease", .str "Total"⟩⟩) =
      createWaterfallChartErrorResponse
        "Invalid waterfall chart data: need at least 2 valid numeric values"
  rw [if_pos h]

theorem validateWaterfall_ok (interp : String) (cs vs : List JVal)
    (h : ¬ (validIndices vs).length < 2) (out : List JVal)
    (hrel : relabelCategories (keptCategories cs vs) (keptValues vs) = .ok out) :
    validateWaterfall interp (.obj [("categories", .arr cs), ("values", .arr vs)]) =
      ⟨interp, .waterfall ⟨out, keptValues vs,
                           .str "Increase", .str "Decrease", .str "Total"⟩⟩ := by
  show (if (validIndices vs).length < 2
        then createWaterfallChartErrorResponse
               "Invalid waterfall chart data: need at least 2 valid numeric values"
        else match relabelCategories (keptCategories cs vs) (keptValues vs) with
          | .error e => createErrorResponse ("Validation error: " ++ e)
          | .ok finalCats =>
              ⟨interp, .waterfall ⟨finalCats, keptValues vs,
                                   .str "Increase", .str "Decrease", .str "Total"⟩⟩) =
      ⟨interp, .waterfall ⟨out, keptValues vs, .str "Increase", .str "Decrease", .str "Total"⟩⟩
  rw [if_neg h, hrel]

theorem filterMap_jsNumber_map_num (vs : List ℚ) :
    (vs.map JVal.num).filterMap jsNumber = vs := by
  induction vs with
  | nil => rfl
  | cons a t ih => simp [jsNumber, List.filterMap_cons, ih]

/-- A concrete pie response holding a negative value. -/
def negPieRaw : JVal :=
  .obj [("interpretation", .str "ok"),
        ("statistics", .obj [("type", .str "pie_chart"),
          ("data", .obj [("labels", .arr [.str "A", .str "B"]),
                         ("values", .arr [.num (-5), .num 3]),
                         ("colors", .arr [.str "#111111", .str "#222222"])])])]

/-- C3 counterexample.  A pie response whose values hold the negative
number `-5` passes `validateResponse` unchanged (labels, values and
colors are returned as supplied, `-5` included) and passes the retry
loop acceptance test, so the claimed non-negativity invariant is not
enforced anywhere. -/
theorem pie_negative_value_passes_unchanged :
    validateResponse negPieRaw =
      ⟨"ok", .pie ⟨[.str "A", .str "B"], [-5, 3],
                   .arr [.str "#111111", .str "#222222"]⟩⟩ ∧
    acceptable (validateResponse negPieRaw) = true :=
  ⟨rfl, rfl⟩

/-- C3 amended.  The validator requires of pie values only that they
coerce to numbers (at least one): a pie response whose values are
arbitrary rationals — negative ones included — passes validation with
exactly those values retained, and is accepted by the retry loop whenever
its interpretation is non-empty and mentions neither `"Invalid"` nor
`"Error"`. -/
theorem pie_values_not_sign_checked (interp : String) (ls : List JVal) (vs : List ℚ)
    (hvs : vs ≠ [])
    (hne : interp ≠ "")
    (hI : strContains interp "Invalid" = false)
    (hE : strContains interp "Error" = false) :
    (validateResponse (mkPieRawJ interp (.arr ls) (.arr (vs.map .num)))).statistics =
      .pie ⟨keptPieLabels ls (vs.map .num), vs,
            genColors (keptPieLabels ls (vs.map .num))⟩ ∧
    acceptable (validateResponse (mkPieRawJ interp (.arr ls) (.arr (vs.map .num)))) = true := by
  have hkept : (validIndices (vs.map JVal.num)).isEmpty = false := by
    rw [validIndices_allNum]
    cases vs with
    | nil => exact absurd rfl hvs
    | cons a t => simp [List.range_succ_eq_map]
  have hvals : keptValues (vs.map JVal.num) = vs := by
    rw [keptValues_eq_filterMap, filterMap_jsNumber_map_num]
  have hred : validateResponse (mkPieRawJ interp (.arr ls) (.arr (vs.map .num))) =
      ⟨interp, .pie ⟨keptPieLabels ls (vs.map .num), vs,
                     genColors (keptPieLabels ls (vs.map .num))⟩⟩ := by
    rw [validateResponse_pieRaw, if_neg hne, validatePie_ok interp ls (vs.map .num) hkept,
      hvals]
  rw [hred]
  refine ⟨rfl, ?_⟩
  unfold acceptable
  rw [hI, hE]
  rfl

/-- Witness for C3 amended, at a single-slice pie whose value is `-5`. -/
theorem pie_values_not_sign_checked_witness :
    (validateResponse (mkPieRawJ "negative kept" (.arr [.str "A"])
        (.arr ([(-5 : ℚ)].map JVal.num)))).statistics =
      .pie ⟨[.str "A"], [-5], .arr [.str "#4299E1"]⟩ ∧
    acceptable (validateResponse (mkPieRawJ "negative kept" (.arr [.str "A"])
        (.arr ([(-5 : ℚ)].map JVal.num)))) = true := by
  have h := pie_values_not_sign_checked "negative kept" [.str "A"] [(-5 : ℚ)]
      (List.cons_ne_nil _ _) (by decide) (by decide) (by decide)
  refine ⟨?_, h.2⟩
  rw [h.1]
  rfl


/-! ### Membership and relabelling helper lemmas -/

theorem getD_mem (l : List JVal) (i : ℕ) (hi : i < l.length) : l.getD i JVal.null ∈ l := by
  rw [List.getD_eq_getElem l JVal.null hi]
  exact List.getElem_mem hi

theorem relabelLast_ok_of_last_string (cats1 : List JVal)
    (hlast : ∃ s, cats1.getD (cats1.length - 1) JVal.null = JVal.str s) :
    ∃ out, relabelLast cats1 = .ok out ∧ out.length = cats1.length := by
  obtain ⟨s, hs⟩ := hlast
  unfold relabelLast
  rw [hs]
  refine ⟨_, rfl, ?_⟩
  split <;> simp

theorem relabelCategories_ok_of_inspected_strings (cats : List JVal) (vals : List ℚ)
    (h2 : 2 ≤ cats.length)
    (hhead : vals.getD 0 1 = 0 → ∃ s, cats.getD 0 JVal.null = JVal.str s)
    (hlast : ∃ s, cats.getD (cats.length - 1) JVal.null = JVal.str s) :
    ∃ out, relabelCategories cats vals = .ok out ∧ out.length = cats.length := by
  unfold relabelCategories
  rw [if_pos h2]
  by_cases hv : vals.getD 0 1 = 0
  · obtain ⟨s, hs⟩ := hhead hv
    rw [if_pos hv, hs]
    show ∃ out,
        (if strContains (jsToLower s) "start" = true then relabelLast cats
         else relabelLast (cats.set 0 (JVal.str "Start"))) = Except.ok out ∧
        out.length = cats.length
    by_cases hstart : strContains (jsToLower s) "start" = true
    · rw [if_pos hstart]
      exact relabelLast_ok_of_last_string cats hlast
    · rw [if_neg hstart]
      have hgd : (cats.set 0 (JVal.str "Start")).getD (cats.length - 1) JVal.null =
          cats.getD (cats.length - 1) JVal.null := by
        have hlt : cats.length - 1 < cats.length := by omega
        rw [List.getD_eq_getElem _ _ (by simpa using hlt), List.getD_eq_getElem _ _ hlt]
        exact List.getElem_set_ne (by omega) _
      have hlast' : ∃ s, (cats.set 0 (JVal.str "Start")).getD
          ((cats.set 0 (JVal.str "Start")).length - 1) JVal.null = JVal.str s := by
        rw [List.length_set, hgd]
        exact hlast
      obtain ⟨out, ho, hl⟩ := relabelLast_ok_of_last_string _ hlast'
      refine ⟨out, ho, ?_⟩
      rw [hl]
      simp
  · rw [if_neg hv]
    exact relabelLast_ok_of_last_string cats hlast

/-- A waterfall response with two numerically valid pairs whose last
category is the (truthy, non-string) number `7`. -/
def wfNonStringCategoryRaw : JVal :=
  mkWfRawJ "ok" (.arr [.str "a", .num 7]) (.arr [.num 1, .num 2])

/-- C5 counterexample.  Both arrays are present and both values coerce to
numbers (2 pairs, the waterfall minimum), yet the validator does not keep
the pairs: renaming the last category calls `.toLowerCase()` on the
number `7`, the `TypeError` is caught, and the generic
`Validation error: ...` pie response is returned instead — and since that
interpretation contains neither `"Invalid"` nor `"Error"` the attempt is
not marked failed either. -/
theorem waterfall_throw_discards_valid_pairs :
    validateResponse wfNonStringCategoryRaw =
      createErrorResponse
        "Validation error: data.categories[lastIdx].toLowerCase is not a function" ∧
    (validIndices [JVal.num 1, JVal.num 2]).length = 2 ∧
    acceptable (validateResponse wfNonStringCategoryRaw) = true :=
  ⟨rfl, rfl, rfl⟩

/-- C5 amended.  When the pie labels/values (or waterfall
categories/values) arrays are both present, the validator keeps exactly
the index pairs whose value coerces to a number and marks the attempt
failed (an error response whose interpretation carries `"Invalid"`)
exactly when fewer than 1 numeric pair (pie) or 2 (waterfall) remain —
provided, for a waterfall, that the kept categories the
boundary-relabelling step actually inspects are strings: the last kept
category always, and the first kept category when the first kept value
is `0`.  Non-inspected kept categories may be any value and are kept
as-is; a truthy non-string category at an inspected position instead
makes the validator return the generic `Validation error` pie response
(see the counterexample). -/
theorem validator_pair_filtering (interp : String) (ls cs vs : List JVal) :
    ((validIndices vs).isEmpty = true →
      validateResponse (mkPieRawJ interp (.arr ls) (.arr vs)) =
        createPieChartErrorResponse "Invalid pie chart data: no valid numeric values") ∧
    ((validIndices vs).isEmpty = false →
      pieDataOf (validateResponse (mkPieRawJ interp (.arr ls) (.arr vs))) =
        some ⟨keptPieLabels ls vs, vs.filterMap jsNumber, genColors (keptPieLabels ls vs)⟩) ∧
    ((validIndices vs).length < 2 →
      validateResponse (mkWfRawJ interp (.arr cs) (.arr vs)) =
        createWaterfallChartErrorResponse
          "Invalid waterfall chart data: need at least 2 valid numeric values") ∧
    (2 ≤ (validIndices vs).length →
      ((keptValues vs).getD 0 1 = 0 →
        ∃ s, (keptCategories cs vs).getD 0 JVal.null = JVal.str s) →
      (∃ s, (keptCategories cs vs).getD
          ((keptCategories cs vs).length - 1) JVal.null = JVal.str s) →
      ∃ finalCats,
        wfDataOf (validateResponse (mkWfRawJ interp (.arr cs) (.arr vs))) =
          some ⟨finalCats, vs.filterMap jsNumber,
                .str "Increase", .str "Decrease", .str "Total"⟩ ∧
        finalCats.length = (vs.filterMap jsNumber).length) ∧
    acceptable (createPieChartErrorResponse
      "Invalid pie chart data: no valid numeric values") = false ∧
    acceptable (createWaterfallChartErrorResponse
      "Invalid waterfall chart data: need at least 2 valid numeric values") = false := by
  refine ⟨?_, ?_, ?_, ?_, by decide, by decide⟩
  · intro h
    rw [validateResponse_pieRaw]
    exact validatePie_err _ ls vs h
  · intro h
    rw [validateResponse_pieRaw, validatePie_ok _ ls vs h, ← keptValues_eq_filterMap]
    rfl
  · intro h
    rw [validateResponse_wfRaw]
    exact validateWaterfall_err _ cs vs h
  · intro h2 hhead hlast
    have hcl : (keptCategories cs vs).length = (validIndices vs).length := by
      simp [keptCategories]
    obtain ⟨out, ho, hl⟩ :=
      relabelCategories_ok_of_inspected_strings (keptCategories cs vs) (keptValues vs)
        (by omega) hhead hlast
    refine ⟨out, ?_, ?_⟩
    · rw [validateResponse_wfRaw, validateWaterfall_ok _ cs vs (by omega) out ho,
        ← keptValues_eq_filterMap]
      rfl
    · rw [hl, ← keptValues_eq_filterMap]
      simp [keptCategories, keptValues]

/-- Witness for C5 amended, exercising three branches: the pie branch
keeps exactly the pairs at numeric indices 0 and 2 (the label read out of
range comes back `undefined` and is kept as such); a waterfall whose
single value is non-numeric is rejected with the minimum-cardinality
error; and a waterfall whose head category is the non-string number `7`
is kept (head not inspected, since the first value is `1`, and the last
kept category `"total"` is a string), both pairs retained as-is. -/
theorem validator_pair_filtering_witness :
    (pieDataOf (validateResponse (mkPieRawJ "ok" (.arr [.str "A", .str "B"])
        (.arr [.num 4, .str "x", .num 6]))) =
      some ⟨[.str "A", .null], [4, 6], genColors [.str "A", .null]⟩) ∧
    (validateResponse (mkWfRawJ "ok" (.arr [.str "Begin", .str "Finale"]) (.arr [.obj []])) =
      createWaterfallChartErrorResponse
        "Invalid waterfall chart data: need at least 2 valid numeric values") ∧
    (∃ finalCats,
      wfDataOf (validateResponse (mkWfRawJ "ok" (.arr [.num 7, .str "total"])
          (.arr [.num 1, .num 2]))) =
        some ⟨finalCats, [(1 : ℚ), 2], .str "Increase", .str "Decrease", .str "Total"⟩ ∧
      finalCats.length = 2) ∧
    (wfDataOf (validateResponse (mkWfRawJ "ok" (.arr [.num 7, .str "total"])
        (.arr [.num 1, .num 2]))) =
      some ⟨[.num 7, .str "total"], [1, 2],
            .str "Increase", .str "Decrease", .str "Total"⟩) := by
  have h1 := (validator_pair_filtering "ok" [.str "A", .str "B"] []
      [.num 4, .str "x", .num 6]).2.1 (by decide)
  have h2 := (validator_pair_filtering "ok" [] [.str "Begin", .str "Finale"]
      [.obj []]).2.2.1 (by decide)
  have h3 := (validator_pair_filtering "ok" [] [.num 7, .str "total"]
      [.num 1, .num 2]).2.2.2.1 (by decide)
      (fun h => absurd h (by decide)) ⟨"total", rfl⟩
  refine ⟨?_, h2, ?_, rfl⟩
  · rw [h1]
    rfl
  · obtain ⟨fc, hfc, hlen⟩ := h3
    exact ⟨fc, hfc, hlen⟩

/-! ### Relabelling characterization on all-string categories -/

theorem getD_map_str (cs : List String) (i : ℕ) (hi : i < cs.length) :
    (cs.map JVal.str).getD i JVal.null = JVal.str (cs.getD i "") := by
  rw [List.getD_eq_getElem _ _ (by simpa using hi), List.getD_eq_getElem _ _ hi,
    List.getElem_map]

theorem relabelLast_strings (cs : List String) (hne : cs ≠ []) :
    relabelLast (cs.map JVal.str) =
      .ok (if strContains (jsToLower (cs.getD (cs.length - 1) "")) "end" = false ∧
              strContains (jsToLower (cs.getD (cs.length - 1) "")) "total" = false
           then (cs.map JVal.str).set (cs.length - 1) (JVal.str "End")
           else cs.map JVal.str) := by
  have hlt : cs.length - 1 < cs.length := by
    cases cs with
    | nil => exact absurd rfl hne
    | cons a t => simp
  unfold relabelLast
  rw [List.length_map, getD_map_str cs _ hlt]
  show Except.ok
      (if (strContains (jsToLower (cs.getD (cs.length - 1) "")) "end" ||
           strContains (jsToLower (cs.getD (cs.length - 1) "")) "total") = true
       then cs.map JVal.str
       else (cs.map JVal.str).set (cs.length - 1) (JVal.str "End")) = _
  by_cases hb : (strContains (jsToLower (cs.getD (cs.length - 1) "")) "end" ||
      strContains (jsToLower (cs.getD (cs.length - 1) "")) "total") = true
  · rw [if_pos hb, if_neg (by
      rintro ⟨hA, hB⟩
      rw [hA, hB] at hb
      simp at hb)]
  · simp only [Bool.or_eq_true, not_or, Bool.not_eq_true] at hb
    rw [hb.1, hb.2]
    rfl

/-- The end-relabelling of the claim, stated over string lists: the last
category (as read from `cs`) is renamed `"End"` in `afterHead` when it
contains neither `"end"` nor `"total"` case-insensitively. -/
def relabelSpecLast (cs afterHead : List String) : List String :=
  if strContains (jsToLower (cs.getD (cs.length - 1) "")) "end" = false ∧
     strContains (jsToLower (cs.getD (cs.length - 1) "")) "total" = false
  then afterHead.set (cs.length - 1) "End" else afterHead

/-- The category rewrite the claim describes: the head is renamed
`"Start"` when the first value is `0` and the head does not contain
`"start"` case-insensitively, then the last category is renamed `"End"`
when it contains neither `"end"` nor `"total"`. -/
def relabelSpec (cs : List String) (vs : List ℚ) : List String :=
  relabelSpecLast cs
    (if vs.getD 0 1 = 0 ∧ strContains (jsToLower (cs.getD 0 "")) "start" = false
     then cs.set 0 "Start" else cs)

theorem relabelCategories_strings (cs : List String) (vs : List ℚ) (h2 : 2 ≤ cs.length) :
    relabelCategories (cs.map JVal.str) vs = .ok ((relabelSpec cs vs).map JVal.str) := by
  have hlt0 : 0 < cs.length := by omega
  have hlast : cs.length - 1 < cs.length := by omega
  have hmaplen : 2 ≤ (cs.map JVal.str).length := by simpa using h2
  have hcsne : cs ≠ [] := by
    intro hc
    rw [hc] at h2
    simp at h2
  have hsetne : cs.set 0 "Start" ≠ [] := by
    intro hc
    have hlen : (cs.set 0 "Start").length = 0 := by
      rw [hc]
      rfl
    rw [List.length_set] at hlen
    omega
  have hgd : (cs.set 0 "Start").getD (cs.length - 1) "" = cs.getD (cs.length - 1) "" := by
    rw [List.getD_eq_getElem _ _ (by simpa using hlast), List.getD_eq_getElem _ _ hlast]
    exact List.getElem_set_ne (by omega) _
  unfold relabelCategories
  rw [if_pos hmaplen]
  by_cases hv : vs.getD 0 1 = 0
  · rw [if_pos hv, getD_map_str cs 0 hlt0]
    show (if strContains (jsToLower (cs.getD 0 "")) "start" = true
          then relabelLast (cs.map JVal.str)
          else relabelLast ((cs.map JVal.str).set 0 (JVal.str "Start"))) =
        Except.ok ((relabelSpec cs vs).map JVal.str)
    by_cases hstart : strContains (jsToLower (cs.getD 0 "")) "start" = true
    · have hspec : relabelSpec cs vs = relabelSpecLast cs cs := by
        unfold relabelSpec
        rw [if_neg (by
          rintro ⟨h1, hck⟩
          rw [hstart] at hck
          simp at hck)]
      rw [if_pos hstart, relabelLast_strings cs hcsne, hspec]
      congr 1
      unfold relabelSpecLast
      rw [apply_ite (List.map JVal.str)]
      by_cases hl : strContains (jsToLower (cs.getD (cs.length - 1) "")) "end" = false ∧
          strContains (jsToLower (cs.getD (cs.length - 1) "")) "total" = false
      · rw [if_pos hl, if_pos hl]
        simp only [List.map_set]
      · rw [if_neg hl, if_neg hl]
    · have hspec : relabelSpec cs vs = relabelSpecLast cs (cs.set 0 "Start") := by
        unfold relabelSpec
        rw [if_pos ⟨hv, by simpa using hstart⟩]
      rw [if_neg hstart, ← List.map_set, relabelLast_strings (cs.set 0 "Start") hsetne, hspec]
      congr 1
      rw [List.length_set, hgd]
      unfold relabelSpecLast
      rw [apply_ite (List.map JVal.str)]
      by_cases hl : strContains (jsToLower (cs.getD (cs.length - 1) "")) "end" = false ∧
          strContains (jsToLower (cs.getD (cs.length - 1) "")) "total" = false
      · rw [if_pos hl, if_pos hl]
        simp only [List.map_set]
      · rw [if_neg hl, if_neg hl]
  · have hspec : relabelSpec cs vs = relabelSpecLast cs cs := by
      unfold relabelSpec
      rw [if_neg (by
        rintro ⟨h1, hck⟩
        exact hv h1)]
    rw [if_neg hv, relabelLast_strings cs hcsne, hspec]
    congr 1
    unfold relabelSpecLast
    rw [apply_ite (List.map JVal.str)]
    by_cases hl : strContains (jsToLower (cs.getD (cs.length - 1) "")) "end" = false ∧
        strContains (jsToLower (cs.getD (cs.length - 1) "")) "total" = false
    · rw [if_pos hl, if_pos hl]
      simp only [List.map_set]
    · rw [if_neg hl, if_neg hl]

theorem keptCategories_all (cs : List String) (vs : List ℚ) (hlen : cs.length = vs.length)
    (hne : ∀ s ∈ cs, s ≠ "") :
    keptCategories (cs.map JVal.str) (vs.map JVal.num) = cs.map JVal.str := by
  unfold keptCategories
  rw [validIndices_allNum, ← hlen]
  have hpt : ∀ i ∈ List.range cs.length,
      (fun i => let c := (cs.map JVal.str).getD i JVal.null
                if truthy c then c else JVal.str ("Item " ++ toString i)) i =
      (fun i => JVal.str (cs.getD i "")) i := by
    intro i hi
    have hil : i < cs.length := List.mem_range.mp hi
    have hmem : cs.getD i "" ∈ cs := by
      rw [List.getD_eq_getElem _ _ hil]
      exact List.getElem_mem hil
    have htr : truthy (JVal.str (cs.getD i "")) = true := by
      simp only [truthy, decide_eq_true_eq]
      exact hne _ hmem
    dsimp only
    rw [getD_map_str cs i hil, htr]
    rfl
  rw [List.map_congr_left hpt]
  exact map_range_getD cs "" JVal.str

/-- C10.  A waterfall response whose data passes validation does not come
back verbatim: over an all-string, all-numeric payload the accepted
categories are rewritten exactly as `relabelSpec` describes — head
renamed `"Start"` when the first value is `0` and the head does not
contain `"start"` (case-insensitively), last renamed `"End"` when it
contains neither `"end"` nor `"total"` — and the absent
`increaseLabelText`/`decreaseLabelText`/`totalLabelText` fields come back
filled with `"Increase"`/`"Decrease"`/`"Total"`. -/
theorem waterfall_relabel_rewrites (interp : String) (cs : List String) (vs : List ℚ)
    (hlen : cs.length = vs.length) (h2 : 2 ≤ vs.length) (hne : ∀ s ∈ cs, s ≠ "") :
    wfDataOf (validateResponse
      (mkWfRawJ interp (.arr (cs.map JVal.str)) (.arr (vs.map JVal.num)))) =
      some ⟨(relabelSpec cs vs).map JVal.str, vs,
            .str "Increase", .str "Decrease", .str "Total"⟩ := by
  have hkv : keptValues (vs.map JVal.num) = vs := by
    rw [keptValues_eq_filterMap, filterMap_jsNumber_map_num]
  have hkc := keptCategories_all cs vs hlen hne
  have hcnt : ¬ (validIndices (vs.map JVal.num)).length < 2 := by
    rw [validIndices_allNum, List.length_range]
    omega
  have hrel : relabelCategories (keptCategories (cs.map JVal.str) (vs.map JVal.num))
      (keptValues (vs.map JVal.num)) = .ok ((relabelSpec cs vs).map JVal.str) := by
    rw [hkc, hkv]
    exact relabelCategories_strings cs vs (by omega)
  rw [validateResponse_wfRaw, validateWaterfall_ok _ _ _ hcnt _ hrel, hkv]
  rfl

/-- Witness for C10: `["Begin","Mid","Sum"]` over values `[0,5,5]` comes
back as `["Start","Mid","End"]` with the three label texts filled in. -/
theorem waterfall_relabel_rewrites_witness :
    wfDataOf (validateResponse (mkWfRawJ "ok"
        (.arr (["Begin", "Mid", "Sum"].map JVal.str))
        (.arr (([0, 5, 5] : List ℚ).map JVal.num)))) =
      some ⟨[.str "Start", .str "Mid", .str "End"], [0, 5, 5],
            .str "Increase", .str "Decrease", .str "Total"⟩ := by
  have h := waterfall_relabel_rewrites "ok" ["Begin", "Mid", "Sum"] [0, 5, 5]
      rfl (by simp) (by decide)
  rw [h]
  rfl

end TextToChart
